import Mathlib

/-!
Shallow embedding of the song-recommendation program, from its two
near-duplicate source files `app.py` (console front end) and `st.py`
(web front end).  The embedded parts are the `MusicRecommender` class:
mood detection (`detect_mood`, which differs between the two files only
in its sad-keyword list), the static `mood_map` configuration, the
search aggregation loop (`search_songs_by_language`, identical in both
files), song construction (`_create_song`), and `get_recommendations`.
The external Spotify search is modelled as an oracle supplying one
response per issued query; randomisation (offset and shuffle) is
absorbed into the oracle's choice of returned track list.
-/

/-- Python's `str.lower()` applied to the input, viewed as a character list:
character-wise ASCII lowering. -/
def lowerText (s : String) : List Char := s.toList.map Char.toLower

/-- Python's substring test `needle in haystack` on strings: the needle's
characters occur contiguously in the haystack. -/
def strIn (needle : String) (haystack : List Char) : Bool :=
  decide (needle.toList <:+: haystack)

/-- Python's `sum(1 for keyword in keywords if keyword in user_mood)`: the number of
keywords occurring as substrings of the text. -/
def moodScore (text : List Char) : List String → Nat
  | [] => 0
  | kw :: kws => (if strIn kw text then 1 else 0) + moodScore text kws

namespace App

/-- The `happy` entry of the `mood_keywords` dict in `app.py`'s
`detect_mood`. -/
def happyKeywords : List String :=
  ["happy", "joyful", "excited", "cheerful", "good", "great", "fantastic"]

/-- The `sad` entry of the `mood_keywords` dict in `app.py`'s
`detect_mood`. -/
def sadKeywords : List String :=
  ["sad", "down", "depressed", "melancholic", "heartbroken",
   "I am not feeling good", "upset", "bad", "lonely", "stressed"]

/-- The method `MusicRecommender.detect_mood` from `app.py`: lower-case the input, score
both keyword lists by substring matches, zero the happy score when the text
contains `"not"` or `"no"`, then return the arg-max over `{happy, sad}`
(Python's `max` keeps the first key on ties, and the dict lists `happy`
first), defaulting to `"happy"` when both scores are zero. -/
def detect_mood (user_mood : String) : String :=
  let text := lowerText user_mood
  let happyScore := moodScore text happyKeywords
  let sadScore := moodScore text sadKeywords
  let happyScore := if strIn "not" text || strIn "no" text then 0 else happyScore
  if happyScore ≠ 0 ∨ sadScore ≠ 0 then
    if sadScore > happyScore then "sad" else "happy"
  else "happy"

end App

namespace St

/-- The `happy` entry of the `mood_keywords` dict in `st.py`'s
`detect_mood` (identical to `app.py`'s). -/
def happyKeywords : List String :=
  ["happy", "joyful", "excited", "cheerful", "good", "great", "fantastic"]

/-- The `sad` entry of the `mood_keywords` dict in `st.py`'s `detect_mood`:
it replaces `app.py`'s `"I am not feeling good"` with `"not feeling good"`
and appends six further keywords. -/
def sadKeywords : List String :=
  ["sad", "down", "depressed", "melancholic", "heartbroken",
   "not feeling good", "upset", "bad", "lonely", "stressed",
   "miserable", "empty", "blue", "low", "emotional", "feeling down"]

/-- The method `MusicRecommender.detect_mood` from `st.py`; same algorithm as
`app.py`'s, over `st.py`'s keyword lists. -/
def detect_mood (user_mood : String) : String :=
  let text := lowerText user_mood
  let happyScore := moodScore text happyKeywords
  let sadScore := moodScore text sadKeywords
  let happyScore := if strIn "not" text || strIn "no" text then 0 else happyScore
  if happyScore ≠ 0 ∨ sadScore ≠ 0 then
    if sadScore > happyScore then "sad" else "happy"
  else "happy"

end St

/-- The `Song` dataclass (identical in `app.py` and `st.py`). -/
structure Song where
  title : String
  artist : String
  mood : String
  language : String
  spotify_uri : String
  spotify_url : String
  preview_url : String
  deriving DecidableEq

/-- One track record returned by the catalog search, with exactly the fields
`_create_song` reads: `name`, the artist names under `artists`, `uri`,
`external_urls["spotify"]`, and the optional `preview_url` (absent when the
dict has no such key, so that `track.get("preview_url", "")` yields `""`). -/
structure Track where
  name : String
  artists : List String
  uri : String
  external_url_spotify : String
  preview_url : Option String
  deriving DecidableEq

/-- Python's `sep.join(parts)`, as used for `", ".join([...])`. -/
def joinSep (sep : String) : List String → String
  | [] => ""
  | [a] => a
  | a :: b :: rest => a ++ sep ++ joinSep sep (b :: rest)

/-- The method `MusicRecommender._create_song` (identical in both files). -/
def create_song (track : Track) (mood language : String) : Song :=
  { title := track.name
    artist := joinSep ", " track.artists
    mood := mood
    language := language
    spotify_uri := track.uri
    spotify_url := track.external_url_spotify
    preview_url := track.preview_url.getD "" }

/-- One leaf of the `mood_map` configuration dict. -/
structure MoodConfig where
  search_terms : List String
  seed_genres : List String

/-- The `mood_map` nested dict built in `MusicRecommender.__init__`
(identical in both files); `none` models the `KeyError` raised by
`self.mood_map[mood][language]` when a key is unknown. -/
def mood_map (mood language : String) : Option MoodConfig :=
  if mood = "happy" then
    if language = "english" then
      some ⟨["happy", "upbeat", "dance", "party"], ["pop", "dance"]⟩
    else if language = "hindi" then
      some ⟨["bollywood dance", "hindi party", "bollywood pop"], ["pop"]⟩
    else none
  else if mood = "sad" then
    if language = "english" then
      some ⟨["sad", "melancholic", "emotional", "slow", "heartbroken"],
            ["acoustic", "singer-songwriter"]⟩
    else if language = "hindi" then
      some ⟨["bollywood sad", "hindi emotional", "bollywood classical",
             "dard bhare gane"], ["acoustic", "ghazal"]⟩
    else none
  else none

/-- The line `market = "IN" if language == "hindi" else "US"` inside the
phrase loop of `search_songs_by_language`. -/
def market (language : String) : String :=
  if language = "hindi" then "IN" else "US"

/-- Outcome of one `self.spotify.search(...)` call: `err` models a raised
exception (caught by the inner `except`, which logs and `continue`s the
phrase loop); `ok tracks` models a successful response, `tracks` being the
already-shuffled `results["tracks"]["items"]` list — the random offset and
`random.shuffle` are absorbed into the oracle's choice of list, and a
malformed response failing the `'tracks' in results` check behaves as
`ok []`. -/
inductive SearchOutcome where
  | err
  | ok (tracks : List Track)

/-- The inner `for track in tracks` loop of `search_songs_by_language`:
append `_create_song(track, mood, language)` for each track, breaking once
`len(songs) >= num_songs`. -/
def collectTracks (mood language : String) (num_songs : Nat)
    (songs : List Song) : List Track → List Song
  | [] => songs
  | t :: ts =>
    if num_songs ≤ songs.length then songs
    else collectTracks mood language num_songs
      (songs ++ [create_song t mood language]) ts

/-- The `for search_term in mood_config["search_terms"]` loop of
`search_songs_by_language`.  `i` numbers the issued searches so the oracle
can answer each one differently; every search also receives the phrase and
the market code that the code passes to `self.spotify.search`.  A failing
search (`err`) skips to the next phrase (`continue`, bypassing the break
check); after a non-raising search the loop breaks once `num_songs` songs
are collected. -/
def phraseLoop (oracle : Nat → String → String → SearchOutcome)
    (mood language : String) (num_songs : Nat) :
    List String → Nat → List Song → List Song
  | [], _, songs => songs
  | term :: rest, i, songs =>
    match oracle i term (market language) with
    | .err => phraseLoop oracle mood language num_songs rest (i + 1) songs
    | .ok tracks =>
      if num_songs ≤ (collectTracks mood language num_songs songs tracks).length
      then collectTracks mood language num_songs songs tracks
      else phraseLoop oracle mood language num_songs rest (i + 1)
        (collectTracks mood language num_songs songs tracks)

/-- The method `MusicRecommender.search_songs_by_language` (identical in both files):
look up `mood_map[mood][language]` (a `KeyError` is caught by the outer
`except`, returning `[]`), run the phrase loop from an empty song list, and
return `songs[:num_songs]`. -/
def search_songs_by_language (oracle : Nat → String → String → SearchOutcome)
    (mood language : String) (num_songs : Nat) : List Song :=
  match mood_map mood language with
  | none => []
  | some cfg =>
    (phraseLoop oracle mood language num_songs cfg.search_terms 0 []).take
      num_songs

/-- The method `MusicRecommender.get_recommendations`: delegates directly to
`search_songs_by_language` (the Python default for `num_songs` is 3). -/
def get_recommendations (oracle : Nat → String → String → SearchOutcome)
    (mood language : String) (num_songs : Nat) : List Song :=
  search_songs_by_language oracle mood language num_songs

/-- The query plan `search_songs_by_language` issues for a (mood, language)
pair: the configured search terms in order, each paired with the market code
passed to `self.spotify.search`; `none` when the `mood_map` lookup fails. -/
def queryPlan (mood language : String) : Option (List (String × String)) :=
  (mood_map mood language).map fun cfg =>
    cfg.search_terms.map fun term => (term, market language)

/-- A string of length zero is the empty string. -/
theorem eq_empty_of_length_eq_zero (s : String) (h : s.length = 0) : s = "" := by
  cases s with
  | mk data =>
    cases data with
    | nil => rfl
    | cons c cs => simp [String.length] at h

/-- Python's `sep.join(a :: l)` is non-empty whenever its first part is. -/
theorem joinSep_ne_empty (sep a : String) (l : List String) (ha : a ≠ "") :
    joinSep sep (a :: l) ≠ "" := by
  have hlen : a.length ≤ (joinSep sep (a :: l)).length := by
    cases l with
    | nil => simp [joinSep]
    | cons b rest =>
      simp only [joinSep, String.length_append]
      omega
  intro h
  rw [h] at hlen
  exact ha (eq_empty_of_length_eq_zero a (Nat.le_zero.mp hlen))

/-- C2: for every oracle behaviour, mood, language and requested count `N`,
the lists returned by `search_songs_by_language` and `get_recommendations`
have length at most `N`. -/
theorem spec_C2 (oracle : Nat → String → String → SearchOutcome)
    (mood language : String) (num_songs : Nat) :
    (search_songs_by_language oracle mood language num_songs).length ≤
      num_songs ∧
    (get_recommendations oracle mood language num_songs).length ≤ num_songs := by
  have h : (search_songs_by_language oracle mood language num_songs).length ≤
      num_songs := by
    unfold search_songs_by_language
    cases mood_map mood language with
    | none => simp
    | some cfg => simp [List.length_take]
  exact ⟨h, h⟩

/-- C4: the query plan for (happy, english) is exactly the 4 configured
search terms with market "US"; the plan for (sad, hindi) is exactly the 4
configured terms with market "IN"; and the market code is "IN" for hindi
and "US" for every other language. -/
theorem spec_C4 :
    queryPlan "happy" "english" =
      some [("happy", "US"), ("upbeat", "US"), ("dance", "US"),
            ("party", "US")] ∧
    queryPlan "sad" "hindi" =
      some [("bollywood sad", "IN"), ("hindi emotional", "IN"),
            ("bollywood classical", "IN"), ("dard bhare gane", "IN")] ∧
    market "hindi" = "IN" ∧
    ∀ language : String, language ≠ "hindi" → market language = "US" := by
  refine ⟨rfl, rfl, rfl, fun language hl => ?_⟩
  simp [market, hl]

theorem spec_C4_witness : market "english" = "US" :=
  spec_C4.2.2.2 "english" (by decide)

/-- C5: in both `app.py` and `st.py`, text whose matches are only happy
keywords (sad score zero, happy score non-zero) and which contains no
negation marker is classified "happy", and text whose matches are only sad
keywords (happy score zero, sad score non-zero) is classified "sad". -/
theorem spec_C5 (user_mood : String) :
    (moodScore (lowerText user_mood) App.happyKeywords ≠ 0 →
     moodScore (lowerText user_mood) App.sadKeywords = 0 →
     strIn "not" (lowerText user_mood) = false →
     strIn "no" (lowerText user_mood) = false →
     App.detect_mood user_mood = "happy") ∧
    (moodScore (lowerText user_mood) App.happyKeywords = 0 →
     moodScore (lowerText user_mood) App.sadKeywords ≠ 0 →
     App.detect_mood user_mood = "sad") ∧
    (moodScore (lowerText user_mood) St.happyKeywords ≠ 0 →
     moodScore (lowerText user_mood) St.sadKeywords = 0 →
     strIn "not" (lowerText user_mood) = false →
     strIn "no" (lowerText user_mood) = false →
     St.detect_mood user_mood = "happy") ∧
    (moodScore (lowerText user_mood) St.happyKeywords = 0 →
     moodScore (lowerText user_mood) St.sadKeywords ≠ 0 →
     St.detect_mood user_mood = "sad") := by
  refine ⟨fun hh hs hn1 hn2 => ?_, fun hh hs => ?_,
          fun hh hs hn1 hn2 => ?_, fun hh hs => ?_⟩ <;>
    simp [App.detect_mood, St.detect_mood, hh, hs, Nat.pos_iff_ne_zero, *]

theorem spec_C5_witness :
    App.detect_mood "happy" = "happy" ∧ App.detect_mood "sad" = "sad" ∧
    St.detect_mood "happy" = "happy" ∧ St.detect_mood "sad" = "sad" :=
  ⟨(spec_C5 "happy").1 (by decide) (by decide) (by decide) (by decide),
   (spec_C5 "sad").2.1 (by decide) (by decide),
   (spec_C5 "happy").2.2.1 (by decide) (by decide) (by decide) (by decide),
   (spec_C5 "sad").2.2.2 (by decide) (by decide)⟩

/-- C6: an input whose lower-cased text matches no happy keyword and no sad
keyword (e.g. "banana") receives the default label "happy" from `app.py`'s
`detect_mood`. -/
theorem spec_C6 (user_mood : String)
    (hh : moodScore (lowerText user_mood) App.happyKeywords = 0)
    (hs : moodScore (lowerText user_mood) App.sadKeywords = 0) :
    App.detect_mood user_mood = "happy" := by
  simp [App.detect_mood, hh, hs]

theorem spec_C6_witness : App.detect_mood "banana" = "happy" :=
  spec_C6 "banana" (by decide) (by decide)

/-- C7: for a mood outside {happy, sad} or a language outside
{english, hindi}, the `mood_map` lookup fails, the resulting `KeyError` is
caught by the outer `except`, and `search_songs_by_language` returns the
empty list. -/
theorem spec_C7 (oracle : Nat → String → String → SearchOutcome)
    (mood language : String) (num_songs : Nat)
    (h : (mood ≠ "happy" ∧ mood ≠ "sad") ∨
         (language ≠ "english" ∧ language ≠ "hindi")) :
    search_songs_by_language oracle mood language num_songs = [] := by
  have hm : mood_map mood language = none := by
    unfold mood_map
    rcases h with ⟨h1, h2⟩ | ⟨h1, h2⟩ <;> simp [h1, h2]
  simp [search_songs_by_language, hm]

theorem spec_C7_witness :
    search_songs_by_language (fun _ _ _ => SearchOutcome.err)
      "angry" "english" 3 = [] :=
  spec_C7 (fun _ _ _ => SearchOutcome.err) "angry" "english" 3
    (Or.inl (by decide))

/-- C8: from a well-formed track (non-empty name, non-empty artist list with
non-empty artist names, a uri, a non-empty external Spotify URL),
`_create_song` builds a song with non-empty title, artist and web URL, and
its preview URL is the empty string when the track has no `preview_url`
field. -/
theorem spec_C8 (track : Track) (mood language : String)
    (hname : track.name ≠ "")
    (hartists : track.artists ≠ [])
    (hanames : ∀ a ∈ track.artists, a ≠ "")
    (hurl : track.external_url_spotify ≠ "") :
    (create_song track mood language).title ≠ "" ∧
    (create_song track mood language).artist ≠ "" ∧
    (create_song track mood language).spotify_url ≠ "" ∧
    (track.preview_url = none →
      (create_song track mood language).preview_url = "") := by
  refine ⟨hname, ?_, hurl, fun hp => ?_⟩
  · obtain ⟨a, l, hal⟩ := List.exists_cons_of_ne_nil hartists
    have ha : a ≠ "" := hanames a (hal ▸ List.mem_cons_self a l)
    simp only [create_song, hal]
    exact joinSep_ne_empty ", " a l ha
  · simp [create_song, hp]

theorem spec_C8_witness :
    (create_song ⟨"Song A", ["Artist X", "Artist Y"], "spotify:track:1",
        "https://open.spotify.com/track/1", none⟩ "happy" "english").title
      ≠ "" ∧
    (create_song ⟨"Song A", ["Artist X", "Artist Y"], "spotify:track:1",
        "https://open.spotify.com/track/1", none⟩ "happy" "english").artist
      ≠ "" ∧
    (create_song ⟨"Song A", ["Artist X", "Artist Y"], "spotify:track:1",
        "https://open.spotify.com/track/1", none⟩ "happy" "english").spotify_url
      ≠ "" ∧
    ((Track.mk "Song A" ["Artist X", "Artist Y"] "spotify:track:1"
        "https://open.spotify.com/track/1" none).preview_url = none →
      (create_song ⟨"Song A", ["Artist X", "Artist Y"], "spotify:track:1",
        "https://open.spotify.com/track/1", none⟩ "happy" "english").preview_url
      = "") :=
  spec_C8 ⟨"Song A", ["Artist X", "Artist Y"], "spotify:track:1",
    "https://open.spotify.com/track/1", none⟩ "happy" "english"
    (by decide) (by decide) (by decide) (by decide)

/-- C3: when every issued catalog search raises, each phrase contributes
zero songs, the loop continues past every failure, and
`search_songs_by_language` returns the empty list — no exception escapes the
aggregator, which the embedding renders as a total function. -/
theorem spec_C3 (oracle : Nat → String → String → SearchOutcome)
    (mood language : String) (num_songs : Nat)
    (hfail : ∀ i term mkt, oracle i term mkt = SearchOutcome.err) :
    search_songs_by_language oracle mood language num_songs = [] := by
  have hloop : ∀ (terms : List String) (i : Nat),
      phraseLoop oracle mood language num_songs terms i [] = [] := by
    intro terms
    induction terms with
    | nil => intro i; rfl
    | cons t rest ih =>
      intro i
      simp only [phraseLoop, hfail]
      exact ih (i + 1)
  unfold search_songs_by_language
  cases mood_map mood language with
  | none => rfl
  | some cfg => simp [hloop]

theorem spec_C3_witness :
    search_songs_by_language (fun _ _ _ => SearchOutcome.err)
      "happy" "english" 3 = [] :=
  spec_C3 (fun _ _ _ => SearchOutcome.err) "happy" "english" 3
    (fun _ _ _ => rfl)

/-- Every song the inner track loop adds to the accumulator carries the mood
and language passed to `_create_song`. -/
theorem collectTracks_inv (mood language : String) (num_songs : Nat)
    (songs : List Song) (tracks : List Track)
    (hinv : ∀ s ∈ songs, s.mood = mood ∧ s.language = language) :
    ∀ s ∈ collectTracks mood language num_songs songs tracks,
      s.mood = mood ∧ s.language = language := by
  induction tracks generalizing songs with
  | nil => exact hinv
  | cons t ts ih =>
    intro s hs
    simp only [collectTracks] at hs
    split at hs
    · exact hinv s hs
    · refine ih _ ?_ s hs
      intro s' hs'
      rcases List.mem_append.mp hs' with hmem | hmem
      · exact hinv s' hmem
      · rcases List.mem_singleton.mp hmem with rfl
        exact ⟨rfl, rfl⟩

/-- Every song the phrase loop adds to the accumulator carries the requested
mood and language. -/
theorem phraseLoop_inv (oracle : Nat → String → String → SearchOutcome)
    (mood language : String) (num_songs : Nat) (terms : List String) :
    ∀ (i : Nat) (songs : List Song),
      (∀ s ∈ songs, s.mood = mood ∧ s.language = language) →
      ∀ s ∈ phraseLoop oracle mood language num_songs terms i songs,
        s.mood = mood ∧ s.language = language := by
  induction terms with
  | nil => exact fun i songs hinv => hinv
  | cons t rest ih =>
    intro i songs hinv s hs
    simp only [phraseLoop] at hs
    split at hs
    · exact ih (i + 1) songs hinv s hs
    · split at hs
      · exact collectTracks_inv mood language num_songs songs _ hinv s hs
      · exact ih (i + 1) _
          (collectTracks_inv mood language num_songs songs _ hinv) s hs

/-- C10: every song returned by `get_recommendations` carries exactly the
requested mood and language, whatever the oracle answers. -/
theorem spec_C10 (oracle : Nat → String → String → SearchOutcome)
    (mood language : String) (num_songs : Nat) (s : Song)
    (hs : s ∈ get_recommendations oracle mood language num_songs) :
    s.mood = mood ∧ s.language = language := by
  unfold get_recommendations search_songs_by_language at hs
  cases hmap : mood_map mood language with
  | none =>
    rw [hmap] at hs
    simp at hs
  | some cfg =>
    rw [hmap] at hs
    exact phraseLoop_inv oracle mood language num_songs cfg.search_terms 0 []
      (fun s' hs' => absurd hs' (List.not_mem_nil s')) s
      (List.take_subset num_songs _ hs)

theorem spec_C10_witness :
    (create_song ⟨"Song A", ["Artist X"], "spotify:track:1",
      "https://open.spotify.com/track/1", none⟩ "happy" "english").mood
      = "happy" ∧
    (create_song ⟨"Song A", ["Artist X"], "spotify:track:1",
      "https://open.spotify.com/track/1", none⟩ "happy" "english").language
      = "english" :=
  spec_C10
    (fun _ _ _ => SearchOutcome.ok [⟨"Song A", ["Artist X"], "spotify:track:1",
      "https://open.spotify.com/track/1", none⟩])
    "happy" "english" 1
    (create_song ⟨"Song A", ["Artist X"], "spotify:track:1",
      "https://open.spotify.com/track/1", none⟩ "happy" "english")
    (by decide)

/-- C1 counterexample: on the spec's own example "I am not happy" the sad
score is zero (no sad keyword of either file matches), so both classifiers
return the default "happy", not "sad" as the claim asserts. -/
theorem spec_C1_counterexample :
    App.detect_mood "I am not happy" ≠ "sad" ∧
    App.detect_mood "I am not happy" = "happy" ∧
    St.detect_mood "I am not happy" = "happy" :=
  ⟨by decide, by decide, by decide⟩

/-- C1 (amended): for every input containing a happy keyword and a negation
marker ("not" or "no" in the lower-cased text), `detect_mood` (in both
files) returns "sad" when the sad score is non-zero, and the default
"happy" when the sad score is zero; the input "I am not happy" falls in the
latter case and yields "happy". -/
theorem spec_C1 (user_mood : String)
    (hneg : strIn "not" (lowerText user_mood) = true ∨
            strIn "no" (lowerText user_mood) = true)
    (_hhappy : moodScore (lowerText user_mood) App.happyKeywords ≠ 0) :
    (moodScore (lowerText user_mood) App.sadKeywords ≠ 0 →
      App.detect_mood user_mood = "sad") ∧
    (moodScore (lowerText user_mood) App.sadKeywords = 0 →
      App.detect_mood user_mood = "happy") ∧
    (moodScore (lowerText user_mood) St.sadKeywords ≠ 0 →
      St.detect_mood user_mood = "sad") ∧
    (moodScore (lowerText user_mood) St.sadKeywords = 0 →
      St.detect_mood user_mood = "happy") := by
  have hb : (strIn "not" (lowerText user_mood) ||
      strIn "no" (lowerText user_mood)) = true := by
    rcases hneg with hn | hn <;> simp [hn]
  refine ⟨fun hs => ?_, fun hs => ?_, fun hs => ?_, fun hs => ?_⟩ <;>
    simp [App.detect_mood, St.detect_mood, hb, hs, Nat.pos_iff_ne_zero]

theorem spec_C1_witness :
    App.detect_mood "not happy" = "happy" ∧
    App.detect_mood "not happy but sad" = "sad" :=
  ⟨(spec_C1 "not happy" (Or.inl (by decide)) (by decide)).2.1 (by decide),
   (spec_C1 "not happy but sad" (Or.inl (by decide)) (by decide)).1
     (by decide)⟩

/-- If `a` occurs inside `b` and `b` occurs in the text, then `a` occurs in
the text. -/
theorem strIn_mono (a b : String) (text : List Char)
    (hab : a.toList <:+: b.toList) (hb : strIn b text = true) :
    strIn a text = true := by
  simp only [strIn, decide_eq_true_iff] at hb ⊢
  exact hab.trans hb

/-- The sad score of `st.py` dominates `app.py`'s on every text: the nine
matchable keywords of `app.py`'s sad list all reappear in `st.py`'s, and
`app.py`'s tenth keyword "I am not feeling good" contains `st.py`'s
"not feeling good", so any match of the former is also a match of the
latter. -/
theorem sadScore_app_le_st (text : List Char) :
    moodScore text App.sadKeywords ≤ moodScore text St.sadKeywords := by
  have hmono : (if strIn "I am not feeling good" text then 1 else 0) ≤
      (if strIn "not feeling good" text then (1 : Nat) else 0) := by
    by_cases hI : strIn "I am not feeling good" text = true
    · rw [if_pos hI,
        if_pos (strIn_mono "not feeling good" "I am not feeling good" text
          (by decide) hI)]
    · rw [if_neg hI]
      exact Nat.zero_le _
  simp only [App.sadKeywords, St.sadKeywords, moodScore]
  omega

/-- C9 counterexample: the two classifiers are different functions: on the
input "miserable" (a sad keyword present only in `st.py`'s list), `app.py`'s
`detect_mood` returns "happy" while `st.py`'s returns "sad". -/
theorem spec_C9_counterexample :
    App.detect_mood "miserable" = "happy" ∧
    St.detect_mood "miserable" = "sad" ∧
    App.detect_mood "miserable" ≠ St.detect_mood "miserable" :=
  ⟨by decide, by decide, by decide⟩

/-- C9 (amended): the two near-duplicate classifiers do not compute the same
function (they differ e.g. on "miserable"), but they agree one way: whenever
`app.py`'s `detect_mood` returns "sad", `st.py`'s does too — the happy lists
and negation handling coincide, and `st.py`'s sad score dominates
`app.py`'s. -/
theorem spec_C9 (user_mood : String)
    (h : App.detect_mood user_mood = "sad") :
    St.detect_mood user_mood = "sad" := by
  have hsad := sadScore_app_le_st (lowerText user_mood)
  have hhk : moodScore (lowerText user_mood) St.happyKeywords =
      moodScore (lowerText user_mood) App.happyKeywords := rfl
  simp only [App.detect_mood] at h
  simp only [St.detect_mood, hhk]
  by_cases hneg : (strIn "not" (lowerText user_mood) ||
      strIn "no" (lowerText user_mood)) = true
  · rw [if_pos hneg] at h
    rw [if_pos hneg]
    have hgt : moodScore (lowerText user_mood) App.sadKeywords > 0 := by
      by_contra hng
      have h0 : moodScore (lowerText user_mood) App.sadKeywords = 0 := by
        omega
      simp [h0] at h
    have hgtS : moodScore (lowerText user_mood) St.sadKeywords > 0 :=
      lt_of_lt_of_le hgt hsad
    rw [if_pos (Or.inr (Nat.pos_iff_ne_zero.mp hgtS)), if_pos hgtS]
  · rw [if_neg hneg] at h
    rw [if_neg hneg]
    have hgt : moodScore (lowerText user_mood) App.sadKeywords >
        moodScore (lowerText user_mood) App.happyKeywords := by
      by_contra hng
      by_cases hA : moodScore (lowerText user_mood) App.happyKeywords ≠ 0 ∨
          moodScore (lowerText user_mood) App.sadKeywords ≠ 0
      · rw [if_pos hA, if_neg hng] at h
        exact absurd h (by decide)
      · rw [if_neg hA] at h
        exact absurd h (by decide)
    have hgtS : moodScore (lowerText user_mood) St.sadKeywords >
        moodScore (lowerText user_mood) App.happyKeywords :=
      lt_of_lt_of_le hgt hsad
    rw [if_pos (Or.inr (Nat.pos_iff_ne_zero.mp (by omega))), if_pos hgtS]

theorem spec_C9_witness : St.detect_mood "sad" = "sad" :=
  spec_C9 "sad" (by decide)

